import Mathlib

/-!
Verification of `scripts/spec-diff.py` (SDD Spine spec diff report generator).

The script is embedded shallowly:
* Python `str` values are Lean `String`s; the handful of string methods the
  script uses (`splitlines`, `split`, `strip`, `rstrip`, `startswith`,
  `"\n".join`) are re-implemented below on `List Char`, following CPython's
  documented semantics.
* `pathlib.PurePosixPath` is embedded as `PyPath`, the list of parsed parts
  exactly as CPython 3.11 `pathlib._PosixFlavour.parse_parts` produces them
  (root kept as a first `"/"`/`"//"` component; empty and `"."` components
  dropped).  Path equality, ordering (`_cparts` comparison) and `str()`
  rendering follow that representation.
* `git` subprocess calls are an oracle: the text a call would print is either
  supplied directly as an argument (for the pure parsing core) or drawn from
  an explicit `World` record (for the `main` model).  A non-zero git exit is
  an `Except.error` carrying the `RuntimeError` message `run_git` would raise.
* Filesystem effects of `main` (report creation/writes, `mkdir`) and the
  stdout/stderr text are tracked in an `Effects` record; `main` returns an
  `Outcome` that is either a process exit with a code or an uncaught
  exception.
-/

/-! ## Python string primitives -/

/-- Characters Python's `str.strip()` / `str.isspace` treat as whitespace. -/
def pyIsSpace (c : Char) : Bool :=
  c = ' ' || c = '\t' || c = '\n' || c = '\r' || c.toNat = 11 || c.toNat = 12 ||
  c.toNat = 28 || c.toNat = 29 || c.toNat = 30 || c.toNat = 31 ||
  c.toNat = 133 || c.toNat = 160 || c.toNat = 5760 ||
  (8192 ≤ c.toNat && c.toNat ≤ 8202) || c.toNat = 8232 || c.toNat = 8233 ||
  c.toNat = 8239 || c.toNat = 8287 || c.toNat = 12288

/-- Line boundaries recognised by Python's `str.splitlines()`. -/
def pyIsLineBreak (c : Char) : Bool :=
  c = '\n' || c = '\r' || c.toNat = 11 || c.toNat = 12 || c.toNat = 28 ||
  c.toNat = 29 || c.toNat = 30 || c.toNat = 133 || c.toNat = 8232 ||
  c.toNat = 8233

/-- Worker for `pySplitlines`; `acc` holds the current line reversed. -/
def splitlinesGo (acc : List Char) : List Char → List String
  | [] => if acc.isEmpty then [] else [String.mk acc.reverse]
  | '\r' :: '\n' :: cs => String.mk acc.reverse :: splitlinesGo [] cs
  | c :: cs =>
    if pyIsLineBreak c then String.mk acc.reverse :: splitlinesGo [] cs
    else splitlinesGo (c :: acc) cs

/-- Python `s.splitlines()`: split at line boundaries (with `"\r\n"` counting
as a single boundary), no trailing empty line for a final terminator. -/
def pySplitlines (s : String) : List String :=
  splitlinesGo [] s.data

/-- Worker splitting a character list at every occurrence of `sep`
(Python `s.split(sep)` semantics: no collapsing, `""` gives `[""]`). -/
def splitOnCharGo (sep : Char) (acc : List Char) : List Char → List String
  | [] => [String.mk acc.reverse]
  | c :: cs =>
    if c = sep then String.mk acc.reverse :: splitOnCharGo sep [] cs
    else splitOnCharGo sep (c :: acc) cs

/-- Python `raw.split("\t")`. -/
def pySplitTab (s : String) : List String :=
  splitOnCharGo '\t' [] s.data

/-- Everything after the first `':'` (Python `line.split(":", 1)[1]` when a
colon is present; `[]` when there is none). -/
def afterFirstColon : List Char → List Char
  | [] => []
  | c :: cs => if c = ':' then cs else afterFirstColon cs

/-- Python `s.strip()` on a character list. -/
def pyStripChars (l : List Char) : List Char :=
  ((l.dropWhile pyIsSpace).reverse.dropWhile pyIsSpace).reverse

/-- Python `s.strip()`. -/
def pyStrip (s : String) : String :=
  String.mk (pyStripChars s.data)

/-- Python `s.rstrip()`. -/
def pyRstrip (s : String) : String :=
  String.mk ((s.data.reverse.dropWhile pyIsSpace).reverse)

/-- Test that `p` is a character-list prefix of the second argument. -/
def strPrefCharsB : List Char → List Char → Bool
  | [], _ => true
  | _ :: _, [] => false
  | a :: as, b :: bs => a = b && strPrefCharsB as bs

/-- Python `s.startswith(p)`. -/
def pyStartsWith (s p : String) : Bool :=
  strPrefCharsB p.data s.data

/-- Python `sep.join(xs)`. -/
def joinWith (sep : String) : List String → String
  | [] => ""
  | [x] => x
  | x :: xs => x ++ sep ++ joinWith sep xs

/-! ## Orderings (Python `list.sort` on `Path`s / `str`s) -/

/-- Lexicographic strict order on lists induced by a strict order on
elements; this is Python's `list`/`tuple` `<`. -/
def lexLt (lt : α → α → Bool) : List α → List α → Bool
  | [], [] => false
  | [], _ :: _ => true
  | _ :: _, [] => false
  | a :: as, b :: bs =>
    if lt a b then true else if lt b a then false else lexLt lt as bs

/-- Python `<` on single characters (code-point order). -/
def chLt (a b : Char) : Bool :=
  decide (a < b)

/-- Python `<` on strings (code-point lexicographic). -/
def pyStrLtB (s t : String) : Bool :=
  lexLt chLt s.data t.data

/-- Non-strict companion of `pyStrLtB`. -/
def pyStrLeB (s t : String) : Bool :=
  !(pyStrLtB t s)

/-- Insert `x` into `l` before the first element `y` with `le x y`. -/
def insertBy (le : α → α → Bool) (x : α) : List α → List α
  | [] => [x]
  | y :: ys => if le x y then x :: y :: ys else y :: insertBy le x ys

/-- Insertion sort.  Python's `list.sort()` is a stable ascending sort by
`__lt__`; on the total orders used here (`Path` and `str` comparison) two
order-equivalent elements are equal, so any ascending sort — in particular
this one — returns exactly the list CPython's Timsort returns. -/
def sortBy (le : α → α → Bool) : List α → List α
  | [] => []
  | x :: xs => insertBy le x (sortBy le xs)

/-- Test that `le` holds between each pair of consecutive elements. -/
def sortedByB (le : α → α → Bool) : List α → Bool
  | [] => true
  | [_] => true
  | a :: b :: rest => le a b && sortedByB le (b :: rest)

/-! ## `pathlib.PurePosixPath` -/

/-- A parsed POSIX path: CPython 3.11 `PurePath._parts` (the root, when
present, is the first component `"/"` or `"//"`). -/
structure PyPath where
  parts : List String
deriving DecidableEq

/-- Relative components of a path string: split on `'/'`, dropping empty and
`"."` components (CPython `_Flavour.parse_parts`). -/
def relPathParts (cs : List Char) : List String :=
  (splitOnCharGo '/' [] cs).filter (fun x => x != "" && x != ".")

/-- Parse `pathlib.PurePosixPath(s)` for a single string argument, following
`_PosixFlavour.splitroot` (exactly two leading slashes give root `"//"`,
any other number of leading slashes gives root `"/"`). -/
def PyPath.ofString (s : String) : PyPath :=
  match s.data with
  | [] => ⟨[]⟩
  | c :: cs =>
    if c = '/' then
      let stripped := (c :: cs).dropWhile (fun d => d = '/')
      let root := if (c :: cs).length - stripped.length = 2 then "//" else "/"
      ⟨root :: relPathParts stripped⟩
    else ⟨relPathParts (c :: cs)⟩

/-- Python `str(path)` (`_format_parsed_parts`, empty path rendered `"."`). -/
def PyPath.str (p : PyPath) : String :=
  match p.parts with
  | [] => "."
  | r :: rest =>
    if r = "/" || r = "//" then r ++ joinWith "/" rest
    else joinWith "/" (r :: rest)

/-- Python `path.is_absolute()` on POSIX: the root is non-empty. -/
def PyPath.isAbsolute (p : PyPath) : Bool :=
  p.parts.headD "" = "/" || p.parts.headD "" = "//"

/-- The first list of strings is a leading segment of the second. -/
def strPrefListB : List String → List String → Bool
  | [], _ => true
  | _ :: _, [] => false
  | a :: as, b :: bs => a = b && strPrefListB as bs

/-- Python `path.relative_to(base)`: drop `base`'s parts when they are a
leading segment of `path`'s parts, otherwise fail (`ValueError`). -/
def PyPath.relativeTo (p base : PyPath) : Option PyPath :=
  if strPrefListB base.parts p.parts then some ⟨p.parts.drop base.parts.length⟩
  else none

/-- Python `Path.__lt__`: lexicographic comparison of the `_cparts` lists (case
folding is the identity on POSIX). -/
def pathLtB (p q : PyPath) : Bool :=
  lexLt pyStrLtB p.parts q.parts

/-- Non-strict companion of `pathLtB`. -/
def pathLeB (p q : PyPath) : Bool :=
  !(pathLtB q p)

/-! ## `diff_name_status` (the name-status parser) -/

/-- The four path categories of `DiffSummary` (renames are pre-rendered
`"old -> new"` strings, as in the source). -/
structure DiffSummary where
  added : List PyPath
  modified : List PyPath
  deleted : List PyPath
  renamed : List String
deriving DecidableEq

/-- What one raw name-status line contributes to the summary. -/
inductive LineEntry where
  | added (p : PyPath)
  | modified (p : PyPath)
  | deleted (p : PyPath)
  | renamed (s : String)
deriving DecidableEq

/-- Python list indexing `parts[i]`, totalised with `""` (every use in the
source is guarded by a length check, so the default is never observable). -/
def pyIdx : List String → Nat → String
  | [], _ => ""
  | x :: _, 0 => x
  | _ :: xs, n + 1 => pyIdx xs n

/-- Membership test `is_excluded(path, excludes)`: set membership (sets are lists here;
membership is order- and duplicate-insensitive, matching `set`). -/
def is_excluded (path : PyPath) (excludes : List PyPath) : Bool :=
  excludes.contains path

/-- The body of the `for raw in out.splitlines()` loop of
`diff_name_status`: the at-most-one entry the line `raw` appends. -/
def classifyLine (excludes : List PyPath) (raw : String) : Option LineEntry :=
  if raw.data.all pyIsSpace then none
  else
    let parts := pySplitTab raw
    let status := pyIdx parts 0
    if pyStartsWith status "R" && decide (3 ≤ parts.length) then
      let old_p := PyPath.ofString (pyIdx parts 1)
      let new_p := PyPath.ofString (pyIdx parts 2)
      if !(is_excluded old_p excludes) && !(is_excluded new_p excludes) then
        some (.renamed (old_p.str ++ " -> " ++ new_p.str))
      else none
    else if parts.length < 2 then none
    else
      let p := PyPath.ofString (pyIdx parts 1)
      if is_excluded p excludes then none
      else if status = "A" then some (.added p)
      else if status = "D" then some (.deleted p)
      else some (.modified p)

/-- Projection used to collect the `added` list. -/
def entryAdded : LineEntry → Option PyPath
  | .added p => some p
  | _ => none

/-- Projection used to collect the `modified` list. -/
def entryModified : LineEntry → Option PyPath
  | .modified p => some p
  | _ => none

/-- Projection used to collect the `deleted` list. -/
def entryDeleted : LineEntry → Option PyPath
  | .deleted p => some p
  | _ => none

/-- Projection used to collect the `renamed` list. -/
def entryRenamed : LineEntry → Option String
  | .renamed s => some s
  | _ => none

/-- The pure core of `diff_name_status`: parse the text `out` printed by
`git diff --name-status …` into a `DiffSummary` (the loop appends each
line's contribution in order; each list is then sorted in place). -/
def diff_name_status (out : String) (excludes : List PyPath) : DiffSummary :=
  let entries := (pySplitlines out).filterMap (classifyLine excludes)
  { added := sortBy pathLeB (entries.filterMap entryAdded)
    modified := sortBy pathLeB (entries.filterMap entryModified)
    deleted := sortBy pathLeB (entries.filterMap entryDeleted)
    renamed := sortBy pyStrLeB (entries.filterMap entryRenamed) }

/-! ## `parse_last_head_ref` -/

/-- Lookup `parse_last_head_ref(report_text)`: last non-empty value of a
`"Head ref:"` line, scanning top to bottom. -/
def parse_last_head_ref (report_text : String) : Option String :=
  (pySplitlines report_text).foldl
    (fun last line =>
      if pyStartsWith line "Head ref:" then
        let val := pyStrip (String.mk (afterFirstColon line.data))
        if val ≠ "" then some val else last
      else last)
    none

/-! ## `build_report_entry` -/

/-- A bullet line for a path. -/
def bulletPath (p : PyPath) : String :=
  "- `" ++ p.str ++ "`"

/-- The `git diff` argument list for one file's patch (the first
`["diff", "--", str(p)]` assignment in the source is dead code: it is
overwritten on both branches). -/
def patchDiffArgs (base_ref head_ref : String) (use_worktree : Bool)
    (p : PyPath) : List String :=
  if use_worktree then ["diff", base_ref, "--", p.str]
  else ["diff", base_ref ++ ".." ++ head_ref, "--", p.str]

/-- The patch `for p in summary.added + summary.modified + summary.deleted`
loop: lines appended per file.  A failing `run_git` (`Except.error`) is
downgraded to an inline error line. -/
def patchLines (git : List String → Except String String)
    (base_ref head_ref : String) (use_worktree : Bool) :
    List PyPath → List String
  | [] => []
  | p :: rest =>
    let patch :=
      match git (patchDiffArgs base_ref head_ref use_worktree p) with
      | .ok s => pyRstrip s
      | .error e => "Error generating diff for " ++ p.str ++ ": " ++ e
    ["#### `" ++ p.str ++ "`", "", "```diff",
     if patch = "" then "(no changes)" else patch, "```", ""] ++
      patchLines git base_ref head_ref use_worktree rest

/-- The `lines` list `build_report_entry` accumulates before joining. -/
def buildReportEntryLines (base_ref head_ref : String) (summary : DiffSummary)
    (use_worktree : Bool) (scope_root : PyPath) (excludes : List PyPath)
    (include_patch : Bool) (git : List String → Except String String)
    (now : String) : List String :=
  ["## " ++ now, "",
   "Base ref: " ++ base_ref,
   "Head ref: " ++ head_ref,
   "Scope: " ++ scope_root.str,
   "Includes worktree: " ++ (if use_worktree then "yes" else "no")] ++
  (if excludes.isEmpty then []
   else "Excludes:" :: (sortBy pathLeB excludes).map bulletPath) ++
  ["", "### Summary",
   "- Added: " ++ toString summary.added.length,
   "- Modified: " ++ toString summary.modified.length,
   "- Deleted: " ++ toString summary.deleted.length,
   "- Renamed: " ++ toString summary.renamed.length, ""] ++
  (if summary.added.isEmpty then []
   else "### Added" :: summary.added.map bulletPath ++ [""]) ++
  (if summary.modified.isEmpty then []
   else "### Modified" :: summary.modified.map bulletPath ++ [""]) ++
  (if summary.deleted.isEmpty then []
   else "### Deleted" :: summary.deleted.map bulletPath ++ [""]) ++
  (if summary.renamed.isEmpty then []
   else "### Renamed" :: summary.renamed.map (fun r => "- `" ++ r ++ "`") ++ [""]) ++
  (if include_patch then
    "### Patch" :: "" ::
      patchLines git base_ref head_ref use_worktree
        (summary.added ++ summary.modified ++ summary.deleted)
   else [])

/-- Rendering `build_report_entry`: join the lines, strip trailing whitespace, end
with exactly one newline. -/
def build_report_entry (base_ref head_ref : String) (summary : DiffSummary)
    (use_worktree : Bool) (scope_root : PyPath) (excludes : List PyPath)
    (include_patch : Bool) (git : List String → Except String String)
    (now : String) : String :=
  pyRstrip (joinWith "\n" (buildReportEntryLines base_ref head_ref summary
    use_worktree scope_root excludes include_patch git now)) ++ "\n"

/-! ## `main` -/

/-- The `DEFAULT_EXCLUDES` set from the source (a `set`; modelled as a list whose
membership test is what matters). -/
def DEFAULT_EXCLUDES : List PyPath :=
  [PyPath.ofString "sdd/memory-bank/core/intake-state.md",
   PyPath.ofString "sdd/memory-bank/core/progress.md",
   PyPath.ofString "sdd/memory-bank/core/progress-archive.md",
   PyPath.ofString "sdd/memory-bank/core/sprint-current.md",
   PyPath.ofString "sdd/memory-bank/core/sprint-plan.md",
   PyPath.ofString "sdd/memory-bank/core/backlog.md",
   PyPath.ofString "sdd/memory-bank/core/spec-diff.md"]

/-- The header `ensure_report_exists` writes into a fresh report file. -/
def headerText : String :=
  "# Spec Diff Report\n\n> This file is generated/updated by `python3 scripts/spec-diff.py`.\n\n"

/-- Parsed command-line arguments. -/
structure Args where
  report : String
  scope : String
  base : Option String
  no_worktree : Bool
  patch : Bool
  init : Bool
  update : Bool
  stdout : Bool
deriving DecidableEq

/-- The environment `main` runs in: repository root path, presence of
`.git`, the outputs of the git subprocesses, the report file's current
content (`none` = absent) and the current UTC timestamp string. -/
structure World where
  repoRoot : PyPath
  dotGitExists : Bool
  revParse : Except String String
  reportText : Option String
  git : List String → Except String String
  now : String

/-- Observable effects of one invocation. -/
structure Effects where
  outText : String
  errText : String
  mkdirCalled : Bool
  reportCreated : Bool
  reportWritten : Option String
deriving DecidableEq

/-- No effects at all. -/
def noEffects : Effects :=
  { outText := "", errText := "", mkdirCalled := false,
    reportCreated := false, reportWritten := none }

/-- A finished invocation: a process exit, or an uncaught exception
escaping `main` (`RuntimeError` from `run_git`). -/
inductive Outcome where
  | exits (code : Nat) (eff : Effects)
  | raises (msg : String) (eff : Effects)
deriving DecidableEq

/-- Exit 2 with a message on standard error and no other effect. -/
def usageFailure (msg : String) : Outcome :=
  .exits 2 { noEffects with errText := msg }

/-- Message of the mode-selection usage error (with `print`'s newline). -/
def modeErrText : String :=
  "Error: choose exactly one of --init or --update\n"

/-- Message of the scope usage error. -/
def scopeErrText : String :=
  "Error: --scope must be inside the repository.\n"

/-- Message of the missing-`.git` usage error. -/
def gitMissingErrText : String :=
  "Error: this does not look like a git repository (missing .git).\n"

/-- Message of the no-base-ref usage error (the literal already ends in a
newline; `print` appends another). -/
def noBaseErrText : String :=
  "Error: no base ref found. Run once with --init (recommended after first approval),\nor pass an explicit --base <git-ref>.\n\n"

/-- Resolution `scope_root = Path(args.scope)` plus the absolute-path handling:
absolute scopes must be inside the repository. -/
def scopeResolve (args : Args) (w : World) : Option PyPath :=
  let scope0 := PyPath.ofString args.scope
  if scope0.isAbsolute then scope0.relativeTo w.repoRoot else some scope0

/-- The entry text the `--init` branch builds. -/
def initEntryText (scope_root : PyPath) (head_ref now : String) : String :=
  joinWith "\n"
    ["## " ++ now, "",
     "Base ref: " ++ head_ref,
     "Head ref: " ++ head_ref,
     "Scope: " ++ scope_root.str,
     "Includes worktree: no", "",
     "### Summary",
     "- Baseline initialized (no diff).", ""]

/-- The `--init` branch of `main` (note: `ensure_report_exists` runs before
the `--stdout` check, so creation effects happen in both cases). -/
def initRun (args : Args) (w : World) (scope_root : PyPath)
    (head_ref : String) : Outcome :=
  let created := w.reportText.isNone
  let textAfter := w.reportText.getD headerText
  let entry := initEntryText scope_root head_ref w.now
  if args.stdout then
    .exits 0 { outText := entry, errText := "", mkdirCalled := true,
               reportCreated := created, reportWritten := none }
  else
    .exits 0 { outText := "", errText := "", mkdirCalled := true,
               reportCreated := created,
               reportWritten := some (pyRstrip textAfter ++ "\n\n" ++ entry) }

/-- Python `a or b` on optional strings (`""` and `None` are falsy). -/
def pyOrStr (a b : Option String) : Option String :=
  match a with
  | some s => if s = "" then b else some s
  | none => b

/-- Lines of the "no changes detected" update entry. -/
def noChangesEntryLines (base_ref head_ref : String) (scope_root : PyPath)
    (use_worktree : Bool) (now : String) : List String :=
  ["## " ++ now, "",
   "Base ref: " ++ base_ref,
   "Head ref: " ++ head_ref,
   "Scope: " ++ scope_root.str,
   "Includes worktree: " ++ (if use_worktree then "yes" else "no"), "",
   "### Summary",
   "- No changes detected in the default scope.", ""]

/-- Arguments of the name-status `git diff` invocation. -/
def updateDiffArgs (base_ref head_ref : String) (scope_root : PyPath)
    (use_worktree : Bool) : List String :=
  if use_worktree then ["diff", "--name-status", base_ref, "--", scope_root.str]
  else ["diff", "--name-status", base_ref ++ ".." ++ head_ref, "--", scope_root.str]

/-- Emptiness test `not (summary.added or summary.modified or summary.deleted or
summary.renamed)`. -/
def isEmptySummary (s : DiffSummary) : Bool :=
  s.added.isEmpty && s.modified.isEmpty && s.deleted.isEmpty && s.renamed.isEmpty

/-- The entry an `--update` run renders: the short "no changes" variant for
an empty summary, the itemized `build_report_entry` otherwise. -/
def updateEntryText (base_ref head_ref : String) (summary : DiffSummary)
    (use_worktree : Bool) (scope_root : PyPath) (excludes : List PyPath)
    (include_patch : Bool) (git : List String → Except String String)
    (now : String) : String :=
  if isEmptySummary summary then
    joinWith "\n" (noChangesEntryLines base_ref head_ref scope_root use_worktree now)
  else
    build_report_entry base_ref head_ref summary use_worktree scope_root
      excludes include_patch git now

/-- The `--update` branch of `main`. -/
def updateRun (args : Args) (w : World) (scope_root : PyPath)
    (head_ref : String) (last_head : Option String)
    (excludes : List PyPath) : Outcome :=
  match pyOrStr args.base last_head with
  | none => usageFailure noBaseErrText
  | some base_ref =>
    if base_ref = "" then usageFailure noBaseErrText
    else
      let use_worktree := !args.no_worktree
      match w.git (updateDiffArgs base_ref head_ref scope_root use_worktree) with
      | .error e => .raises e noEffects
      | .ok out =>
        let summary := diff_name_status out excludes
        let entry := updateEntryText base_ref head_ref summary use_worktree
          scope_root excludes args.patch w.git w.now
        if args.stdout then
          .exits 0 { outText := entry, errText := "", mkdirCalled := false,
                     reportCreated := false, reportWritten := none }
        else
          .exits 0 { outText := "", errText := "", mkdirCalled := true,
                     reportCreated := w.reportText.isNone,
                     reportWritten := some (pyRstrip (w.reportText.getD headerText)
                       ++ "\n\n" ++ entry) }

/-- Everything in `main` after the mode check. -/
def mainBody (args : Args) (w : World) : Outcome :=
  match scopeResolve args w with
  | none => usageFailure scopeErrText
  | some scope_root =>
    if !w.dotGitExists then usageFailure gitMissingErrText
    else
      match w.revParse with
      | .error e => .raises e noEffects
      | .ok hr =>
        let head_ref := pyStrip hr
        let report_text := w.reportText.getD ""
        let last_head := parse_last_head_ref report_text
        if args.init then initRun args w scope_root head_ref
        else updateRun args w scope_root head_ref last_head DEFAULT_EXCLUDES

/-- The script's `main()`: the mode check, then everything else.  (Named
`mainRun` because Lean reserves `main` for executables.) -/
def mainRun (args : Args) (w : World) : Outcome :=
  if args.init = args.update then usageFailure modeErrText
  else mainBody args w

/-! ## Order and sorting lemmas -/

theorem chLt_asymm {a b : Char} (h : chLt a b = true) : chLt b a = false := by
  simp only [chLt, decide_eq_true_eq] at h
  simp only [chLt, decide_eq_false_iff_not]
  exact lt_asymm h

theorem chLt_conn {a b : Char} (h1 : chLt a b = false) (h2 : chLt b a = false) :
    a = b := by
  simp only [chLt, decide_eq_false_iff_not] at h1 h2
  exact le_antisymm (not_lt.mp h2) (not_lt.mp h1)

theorem lexLt_asymm {α : Type} (lt : α → α → Bool)
    (hA : ∀ a b, lt a b = true → lt b a = false) :
    ∀ x y, lexLt lt x y = true → lexLt lt y x = false := by
  intro x
  induction x with
  | nil =>
    intro y h
    cases y with
    | nil => simp [lexLt] at h
    | cons b bs => simp [lexLt]
  | cons a as ih =>
    intro y h
    cases y with
    | nil => simp [lexLt] at h
    | cons b bs =>
      simp only [lexLt] at h ⊢
      cases hab : lt a b with
      | true =>
        have hba := hA a b hab
        simp [hab, hba]
      | false =>
        cases hba : lt b a with
        | true => simp [hab, hba] at h
        | false =>
          simp [hab, hba] at h ⊢
          exact ih bs h

theorem lexLt_conn {α : Type} (lt : α → α → Bool)
    (hC : ∀ a b, lt a b = false → lt b a = false → a = b) :
    ∀ x y, lexLt lt x y = false → lexLt lt y x = false → x = y := by
  intro x
  induction x with
  | nil =>
    intro y h1 _
    cases y with
    | nil => rfl
    | cons b bs => simp [lexLt] at h1
  | cons a as ih =>
    intro y h1 h2
    cases y with
    | nil => simp [lexLt] at h2
    | cons b bs =>
      simp only [lexLt] at h1 h2
      cases hab : lt a b with
      | true => simp [hab] at h1
      | false =>
        cases hba : lt b a with
        | true => simp [hba] at h2
        | false =>
          simp only [hab, hba] at h1 h2
          simp at h1 h2
          have hh := hC a b hab hba
          subst hh
          rw [ih bs h1 h2]

theorem string_eq_of_data {s t : String} (h : s.data = t.data) : s = t := by
  cases s; cases t; exact congrArg String.mk (by simpa using h)

theorem pyStrLtB_asymm {s t : String} (h : pyStrLtB s t = true) :
    pyStrLtB t s = false :=
  lexLt_asymm chLt (fun _ _ hab => chLt_asymm hab) s.data t.data h

theorem pyStrLtB_conn {s t : String} (h1 : pyStrLtB s t = false)
    (h2 : pyStrLtB t s = false) : s = t :=
  string_eq_of_data
    (lexLt_conn chLt (fun _ _ hx hy => chLt_conn hx hy) s.data t.data h1 h2)

theorem pathLtB_asymm {p q : PyPath} (h : pathLtB p q = true) :
    pathLtB q p = false :=
  lexLt_asymm pyStrLtB (fun _ _ hab => pyStrLtB_asymm hab) p.parts q.parts h

theorem pathLtB_conn {p q : PyPath} (h1 : pathLtB p q = false)
    (h2 : pathLtB q p = false) : p = q := by
  cases p; cases q
  exact congrArg PyPath.mk
    (lexLt_conn pyStrLtB (fun _ _ hx hy => pyStrLtB_conn hx hy) _ _ h1 h2)

theorem pyStrLeB_total (s t : String) :
    pyStrLeB s t = true ∨ pyStrLeB t s = true := by
  cases h : pyStrLtB t s with
  | false => left; simp [pyStrLeB, h]
  | true => right; simp [pyStrLeB, pyStrLtB_asymm h]

theorem pathLeB_total (p q : PyPath) :
    pathLeB p q = true ∨ pathLeB q p = true := by
  cases h : pathLtB q p with
  | false => left; simp [pathLeB, h]
  | true => right; simp [pathLeB, pathLtB_asymm h]

theorem sortedByB_insertBy {α : Type} (le : α → α → Bool)
    (htot : ∀ a b, le a b = true ∨ le b a = true) (x : α) :
    ∀ l, sortedByB le l = true → sortedByB le (insertBy le x l) = true := by
  intro l
  induction l with
  | nil => intro _; simp [insertBy, sortedByB]
  | cons y ys ih =>
    intro h
    simp only [insertBy]
    cases hxy : le x y with
    | true =>
      simp only [if_pos rfl]
      simp only [sortedByB, hxy, Bool.true_and]
      exact h
    | false =>
      have hyx : le y x = true := by
        cases htot x y with
        | inl h1 => rw [h1] at hxy; cases hxy
        | inr h2 => exact h2
      simp only [Bool.false_eq_true, if_false]
      cases ys with
      | nil => simp [insertBy, sortedByB, hyx]
      | cons z zs =>
        have hzy : le y z = true := by
          simp only [sortedByB, Bool.and_eq_true] at h
          exact h.1
        have htail : sortedByB le (z :: zs) = true := by
          simp only [sortedByB, Bool.and_eq_true] at h
          exact h.2
        have hins := ih htail
        cases hxz : le x z with
        | true =>
          simp only [insertBy, hxz, if_pos rfl] at hins ⊢
          simp only [sortedByB, hyx, Bool.true_and]
          exact hins
        | false =>
          simp only [insertBy, hxz, Bool.false_eq_true, if_false] at hins ⊢
          simp only [sortedByB, hzy, Bool.true_and] at hins ⊢
          exact hins

theorem sortedByB_sortBy {α : Type} (le : α → α → Bool)
    (htot : ∀ a b, le a b = true ∨ le b a = true) :
    ∀ l, sortedByB le (sortBy le l) = true := by
  intro l
  induction l with
  | nil => simp [sortBy, sortedByB]
  | cons x xs ih => exact sortedByB_insertBy le htot x _ ih

theorem mem_insertBy {α : Type} (le : α → α → Bool) (x a : α) :
    ∀ l, a ∈ insertBy le x l ↔ a = x ∨ a ∈ l := by
  intro l
  induction l with
  | nil => simp [insertBy]
  | cons y ys ih =>
    simp only [insertBy]
    cases h : le x y with
    | true => simp [h, List.mem_cons]
    | false =>
      simp only [Bool.false_eq_true, if_false, List.mem_cons, ih]
      tauto

theorem mem_sortBy {α : Type} (le : α → α → Bool) (a : α) :
    ∀ l, a ∈ sortBy le l ↔ a ∈ l := by
  intro l
  induction l with
  | nil => simp [sortBy]
  | cons x xs ih => simp [sortBy, mem_insertBy, ih, List.mem_cons]

/-! ## Claim C1: per-line classification and the worked example -/

/-- C1: for every name-status line fed to the parser, a (non-excluded)
path with status `"A"` yields exactly one `added` entry, status `"D"`
exactly one `deleted` entry, any other single-path status exactly one
`modified` entry, and an `"R"`-prefixed line with two paths exactly one
rename record (and nothing else); and the worked example
`A docs/new.md / M docs/spec.md / D docs/old.md / R100 docs/a.md docs/b.md`
with an empty exclusion set yields exactly the collections the spec
states. -/
theorem C1_name_status_classification :
    (∀ (exc : List PyPath) (raw : String),
      raw.data.all pyIsSpace = false →
      pyIdx (pySplitTab raw) 0 = "A" →
      2 ≤ (pySplitTab raw).length →
      is_excluded (PyPath.ofString (pyIdx (pySplitTab raw) 1)) exc = false →
      classifyLine exc raw =
        some (.added (PyPath.ofString (pyIdx (pySplitTab raw) 1)))) ∧
    (∀ (exc : List PyPath) (raw : String),
      raw.data.all pyIsSpace = false →
      pyIdx (pySplitTab raw) 0 = "D" →
      2 ≤ (pySplitTab raw).length →
      is_excluded (PyPath.ofString (pyIdx (pySplitTab raw) 1)) exc = false →
      classifyLine exc raw =
        some (.deleted (PyPath.ofString (pyIdx (pySplitTab raw) 1)))) ∧
    (∀ (exc : List PyPath) (raw : String),
      raw.data.all pyIsSpace = false →
      pyIdx (pySplitTab raw) 0 ≠ "A" →
      pyIdx (pySplitTab raw) 0 ≠ "D" →
      (pyStartsWith (pyIdx (pySplitTab raw) 0) "R" &&
        decide (3 ≤ (pySplitTab raw).length)) = false →
      2 ≤ (pySplitTab raw).length →
      is_excluded (PyPath.ofString (pyIdx (pySplitTab raw) 1)) exc = false →
      classifyLine exc raw =
        some (.modified (PyPath.ofString (pyIdx (pySplitTab raw) 1)))) ∧
    (∀ (exc : List PyPath) (raw : String),
      raw.data.all pyIsSpace = false →
      pyStartsWith (pyIdx (pySplitTab raw) 0) "R" = true →
      3 ≤ (pySplitTab raw).length →
      is_excluded (PyPath.ofString (pyIdx (pySplitTab raw) 1)) exc = false →
      is_excluded (PyPath.ofString (pyIdx (pySplitTab raw) 2)) exc = false →
      classifyLine exc raw =
        some (.renamed ((PyPath.ofString (pyIdx (pySplitTab raw) 1)).str
          ++ " -> " ++ (PyPath.ofString (pyIdx (pySplitTab raw) 2)).str))) ∧
    diff_name_status
        "A\tdocs/new.md\nM\tdocs/spec.md\nD\tdocs/old.md\nR100\tdocs/a.md\tdocs/b.md" [] =
      { added := [PyPath.ofString "docs/new.md"],
        modified := [PyPath.ofString "docs/spec.md"],
        deleted := [PyPath.ofString "docs/old.md"],
        renamed := ["docs/a.md -> docs/b.md"] } := by
  refine ⟨?_, ?_, ?_, ?_, by decide⟩
  · intro exc raw h1 h2 h3 h4
    have h5 : ¬ ((pySplitTab raw).length < 2) := by omega
    simp [classifyLine, h1, h2, h4, h5,
      (show pyStartsWith "A" "R" = false by decide)]
  · intro exc raw h1 h2 h3 h4
    have h5 : ¬ ((pySplitTab raw).length < 2) := by omega
    simp [classifyLine, h1, h2, h4, h5,
      (show pyStartsWith "D" "R" = false by decide)]
  · intro exc raw h1 h2A h2D hR h3 h4
    have h5 : ¬ ((pySplitTab raw).length < 2) := by omega
    simp [classifyLine, h1, hR, h2A, h2D, h4, h5]
  · intro exc raw h1 hR h3 h4 h5
    have h3' : decide (3 ≤ (pySplitTab raw).length) = true := decide_eq_true h3
    simp [classifyLine, h1, hR, h3', h4, h5]

/-- Witness for `C1_name_status_classification` at concrete inputs. -/
theorem C1_name_status_classification_witness :
    classifyLine [] "A\tdocs/x.md" =
      some (.added (PyPath.ofString "docs/x.md")) ∧
    classifyLine [] "T\tdocs/x.md" =
      some (.modified (PyPath.ofString "docs/x.md")) := by
  constructor
  · have h := C1_name_status_classification.1 [] "A\tdocs/x.md"
      (by decide) (by decide) (by decide) (by decide)
    simpa using h
  · have h := C1_name_status_classification.2.2.1 [] "T\tdocs/x.md"
      (by decide) (by decide) (by decide) (by decide) (by decide) (by decide)
    simpa using h

/-! ## Claim C2: exclusion behaviour -/

/-- C2: a rename line with either side in the exclusion set is dropped
entirely (it contributes nothing to any collection); a rename line with
neither side excluded contributes exactly its rename record, and that
record is a member of the Renamed collection of the parsed summary;
likewise a non-rename line whose path is excluded contributes nothing. -/
theorem C2_exclusion :
    (∀ (exc : List PyPath) (raw : String),
      raw.data.all pyIsSpace = false →
      pyStartsWith (pyIdx (pySplitTab raw) 0) "R" = true →
      3 ≤ (pySplitTab raw).length →
      (is_excluded (PyPath.ofString (pyIdx (pySplitTab raw) 1)) exc = true ∨
        is_excluded (PyPath.ofString (pyIdx (pySplitTab raw) 2)) exc = true) →
      classifyLine exc raw = none) ∧
    (∀ (exc : List PyPath) (raw : String),
      raw.data.all pyIsSpace = false →
      pyStartsWith (pyIdx (pySplitTab raw) 0) "R" = true →
      3 ≤ (pySplitTab raw).length →
      is_excluded (PyPath.ofString (pyIdx (pySplitTab raw) 1)) exc = false →
      is_excluded (PyPath.ofString (pyIdx (pySplitTab raw) 2)) exc = false →
      classifyLine exc raw =
        some (.renamed ((PyPath.ofString (pyIdx (pySplitTab raw) 1)).str
          ++ " -> " ++ (PyPath.ofString (pyIdx (pySplitTab raw) 2)).str))) ∧
    (∀ (exc : List PyPath) (out raw s : String),
      raw ∈ pySplitlines out →
      classifyLine exc raw = some (LineEntry.renamed s) →
      s ∈ (diff_name_status out exc).renamed) ∧
    (∀ (exc : List PyPath) (raw : String),
      raw.data.all pyIsSpace = false →
      (pyStartsWith (pyIdx (pySplitTab raw) 0) "R" &&
        decide (3 ≤ (pySplitTab raw).length)) = false →
      2 ≤ (pySplitTab raw).length →
      is_excluded (PyPath.ofString (pyIdx (pySplitTab raw) 1)) exc = true →
      classifyLine exc raw = none) := by
  refine ⟨?_, ?_, ?_, ?_⟩
  · intro exc raw h1 hR h3 hEx
    have h3' : decide (3 ≤ (pySplitTab raw).length) = true := decide_eq_true h3
    rcases hEx with hO | hN
    · simp [classifyLine, h1, hR, h3', hO]
    · simp [classifyLine, h1, hR, h3', hN]
  · intro exc raw h1 hR h3 h4 h5
    have h3' : decide (3 ≤ (pySplitTab raw).length) = true := decide_eq_true h3
    simp [classifyLine, h1, hR, h3', h4, h5]
  · intro exc out raw s hmem hcls
    simp only [diff_name_status]
    rw [mem_sortBy, List.mem_filterMap]
    exact ⟨.renamed s, List.mem_filterMap.mpr ⟨raw, hmem, hcls⟩, rfl⟩
  · intro exc raw h1 hR h3 hEx
    have h5 : ¬ ((pySplitTab raw).length < 2) := by omega
    simp [classifyLine, h1, hR, h5, hEx]

/-- Witness for `C2_exclusion` at concrete inputs. -/
theorem C2_exclusion_witness :
    classifyLine [PyPath.ofString "docs/a.md"] "R100\tdocs/a.md\tdocs/b.md" = none ∧
    classifyLine [] "R100\tdocs/a.md\tdocs/b.md" =
      some (.renamed ((PyPath.ofString "docs/a.md").str ++ " -> " ++
        (PyPath.ofString "docs/b.md").str)) ∧
    "docs/a.md -> docs/b.md" ∈
      (diff_name_status "R100\tdocs/a.md\tdocs/b.md" []).renamed ∧
    classifyLine [PyPath.ofString "docs/x.md"] "M\tdocs/x.md" = none := by
  refine ⟨?_, ?_, ?_, ?_⟩
  · have h := C2_exclusion.1 [PyPath.ofString "docs/a.md"]
      "R100\tdocs/a.md\tdocs/b.md" (by decide) (by decide) (by decide)
      (Or.inl (by decide))
    simpa using h
  · have h := C2_exclusion.2.1 [] "R100\tdocs/a.md\tdocs/b.md"
      (by decide) (by decide) (by decide) (by decide) (by decide)
    simpa using h
  · exact C2_exclusion.2.2.1 [] "R100\tdocs/a.md\tdocs/b.md"
      "R100\tdocs/a.md\tdocs/b.md" "docs/a.md -> docs/b.md"
      (by decide) (by decide)
  · have h := C2_exclusion.2.2.2 [PyPath.ofString "docs/x.md"] "M\tdocs/x.md"
      (by decide) (by decide) (by decide) (by decide)
    simpa using h

/-! ## Claim C10: totality and malformed-line handling -/

/-- C10: the parser is total and silently skips malformed input: a
blank/whitespace-only line contributes nothing; a non-rename line with
fewer than two tab-separated fields contributes nothing; an
`"R"`-prefixed line with exactly two fields is not treated as a rename
but classified like any other single-path line (its status starts with
`R`, so it lands in Modified unless the path is excluded). -/
theorem C10_malformed_lines :
    (∀ (exc : List PyPath) (raw : String),
      raw.data.all pyIsSpace = true → classifyLine exc raw = none) ∧
    (∀ (exc : List PyPath) (raw : String),
      raw.data.all pyIsSpace = false →
      (pyStartsWith (pyIdx (pySplitTab raw) 0) "R" &&
        decide (3 ≤ (pySplitTab raw).length)) = false →
      (pySplitTab raw).length < 2 →
      classifyLine exc raw = none) ∧
    (∀ (exc : List PyPath) (raw : String),
      raw.data.all pyIsSpace = false →
      pyStartsWith (pyIdx (pySplitTab raw) 0) "R" = true →
      (pySplitTab raw).length = 2 →
      classifyLine exc raw =
        (if is_excluded (PyPath.ofString (pyIdx (pySplitTab raw) 1)) exc = true
         then none
         else some (.modified (PyPath.ofString (pyIdx (pySplitTab raw) 1))))) := by
  refine ⟨?_, ?_, ?_⟩
  · intro exc raw h1
    simp [classifyLine, h1]
  · intro exc raw h1 hR hlen
    simp [classifyLine, h1, hR, hlen]
  · intro exc raw h1 hR hlen
    have hA : pyIdx (pySplitTab raw) 0 ≠ "A" := by
      intro hc
      rw [hc] at hR
      exact absurd hR (by decide)
    have hD : pyIdx (pySplitTab raw) 0 ≠ "D" := by
      intro hc
      rw [hc] at hR
      exact absurd hR (by decide)
    have h3' : decide (3 ≤ (pySplitTab raw).length) = false := by
      rw [hlen]; decide
    have h5 : ¬ ((pySplitTab raw).length < 2) := by omega
    simp [classifyLine, h1, h3', h5, hA, hD]

/-- Witness for `C10_malformed_lines` at concrete inputs. -/
theorem C10_malformed_lines_witness :
    classifyLine [] " \t " = none ∧
    classifyLine [] "Mdocs" = none ∧
    classifyLine [] "R100\tdocs/a.md" =
      some (.modified (PyPath.ofString "docs/a.md")) := by
  refine ⟨?_, ?_, ?_⟩
  · exact C10_malformed_lines.1 [] " \t " (by decide)
  · exact C10_malformed_lines.2.1 [] "Mdocs" (by decide) (by decide) (by decide)
  · have h := C10_malformed_lines.2.2 [] "R100\tdocs/a.md"
      (by decide) (by decide) (by decide)
    simpa using h

/-! ## Claim C4: ordering of the output collections -/

/-- The claim's reading of "sorted ascending by path text": consecutive
entries are non-decreasing in their rendered `str()` text. -/
def textAscendingB (l : List PyPath) : Bool :=
  sortedByB (fun p q => pyStrLeB p.str q.str) l

/-- C4 counterexample: `list.sort()` on `pathlib` paths orders by the parsed
component lists, not by path text.  `Path("a/b") < Path("a-b")` (because the
component `"a"` precedes `"a-b"`), yet as text `"a-b" < "a/b"`
(`'-'` is code point 45, `'/'` is 47).  So for the input lines `A a/b`,
`A a-b` the Added collection comes out as `[a/b, a-b]`, which is not
ascending by path text. -/
theorem C4_counterexample :
    (diff_name_status "A\ta/b\nA\ta-b" []).added.map PyPath.str = ["a/b", "a-b"] ∧
    textAscendingB ((diff_name_status "A\ta/b\nA\ta-b" []).added) = false ∧
    pyStrLtB "a-b" "a/b" = true := by
  decide

/-- C4 (amended): each of the four output collections is sorted ascending,
independent of input order — Added, Modified and Deleted by `pathlib`'s
path order (lexicographic on the parsed component lists), Renamed by
rename-record text.  Path order coincides with path-text order except when
two paths first differ at a `/` component boundary, as in the
counterexample. -/
theorem C4_collections_sorted (out : String) (excludes : List PyPath) :
    sortedByB pathLeB (diff_name_status out excludes).added = true ∧
    sortedByB pathLeB (diff_name_status out excludes).modified = true ∧
    sortedByB pathLeB (diff_name_status out excludes).deleted = true ∧
    sortedByB pyStrLeB (diff_name_status out excludes).renamed = true := by
  refine ⟨?_, ?_, ?_, ?_⟩
  · exact sortedByB_sortBy pathLeB pathLeB_total _
  · exact sortedByB_sortBy pathLeB pathLeB_total _
  · exact sortedByB_sortBy pathLeB pathLeB_total _
  · exact sortedByB_sortBy pyStrLeB pyStrLeB_total _

/-! ## Claim C3: baseline lookup -/

/-- Spec-side: the head-ref value a single line contributes — the stripped
text after the colon of a line beginning `"Head ref:"`, provided that text
is nonempty. -/
def headRefValue (line : String) : Option String :=
  if pyStartsWith line "Head ref:" = true then
    let val := pyStrip (String.mk (afterFirstColon line.data))
    if val ≠ "" then some val else none
  else none

/-- Spec-side: the contribution of the last contributing line, scanning
top to bottom. -/
def lastHeadRefSpec : List String → Option String
  | [] => none
  | line :: rest =>
    match lastHeadRefSpec rest with
    | some v => some v
    | none => headRefValue line

theorem foldl_headref (lines : List String) :
    ∀ acc : Option String,
      lines.foldl
        (fun last line =>
          if pyStartsWith line "Head ref:" then
            let val := pyStrip (String.mk (afterFirstColon line.data))
            if val ≠ "" then some val else last
          else last) acc =
      match lastHeadRefSpec lines with
      | some v => some v
      | none => acc := by
  induction lines with
  | nil => intro acc; rfl
  | cons line rest ih =>
    intro acc
    simp only [List.foldl_cons]
    rw [ih]
    simp only [lastHeadRefSpec]
    cases hrest : lastHeadRefSpec rest with
    | some v => simp
    | none =>
      simp only [headRefValue]
      cases hsw : pyStartsWith line "Head ref:" with
      | true =>
        by_cases hv : pyStrip (String.mk (afterFirstColon line.data)) = ""
        · simp [hsw, hv]
        · simp [hsw, hv]
      | false => simp [hsw]

theorem lastHeadRefSpec_none_iff : ∀ l : List String,
    lastHeadRefSpec l = none ↔ ∀ line ∈ l, headRefValue line = none := by
  intro l
  induction l with
  | nil => simp [lastHeadRefSpec]
  | cons line rest ih =>
    simp only [lastHeadRefSpec]
    cases hrest : lastHeadRefSpec rest with
    | some v =>
      constructor
      · intro hc; simp at hc
      · intro hall
        have hr : lastHeadRefSpec rest = none :=
          ih.mpr (fun l hl => hall l (List.mem_cons_of_mem _ hl))
        rw [hr] at hrest
        simp at hrest
    | none =>
      have hrestAll := ih.mp hrest
      constructor
      · intro h0 l hl
        rcases List.mem_cons.mp hl with rfl | hl'
        · exact h0
        · exact hrestAll l hl'
      · intro hall; exact hall line (List.mem_cons_self _ _)

/-- C3 counterexample: the report text `"Head ref:"` is nonempty and its
single line begins with the literal `"Head ref:"`, yet baseline lookup
returns `none` (the code keeps only values that are nonempty after
stripping), contradicting "returns none exactly when no such line exists
or the report text is empty". -/
theorem C3_counterexample :
    parse_last_head_ref "Head ref:" = none ∧
    "Head ref:" ∈ pySplitlines "Head ref:" ∧
    pyStartsWith "Head ref:" "Head ref:" = true := by
  decide

/-- C3 (amended): baseline lookup returns the stripped after-colon value of
the last `"Head ref:"` line whose value is nonempty after stripping (later
lines take priority, so with multiple entries the chronologically last
nonempty value wins), and returns `none` exactly when no `"Head ref:"`
line has a nonempty stripped value — in particular on empty text. -/
theorem C3_last_head_ref (t : String) :
    parse_last_head_ref t = lastHeadRefSpec (pySplitlines t) ∧
    (parse_last_head_ref t = none ↔
      ∀ line ∈ pySplitlines t, headRefValue line = none) := by
  have h := foldl_headref (pySplitlines t) none
  constructor
  · rw [parse_last_head_ref, h]
    cases hrest : lastHeadRefSpec (pySplitlines t) <;> simp
  · rw [parse_last_head_ref, h]
    cases hrest : lastHeadRefSpec (pySplitlines t) with
    | some v =>
      constructor
      · intro hc; simp at hc
      · intro hall
        have := (lastHeadRefSpec_none_iff _).mpr hall
        rw [this] at hrest
        simp at hrest
    | none =>
      simp only [true_iff, eq_self_iff_true]
      exact (lastHeadRefSpec_none_iff _).mp hrest
/-! ## Claim C9: mode selection -/

/-- C9: selecting neither or both of `--init`/`--update` exits with code 2,
a diagnostic on standard error and no side effects; selecting exactly one
mode passes the check (execution proceeds to the rest of `main`
unchanged). -/
theorem C9_mode_check :
    (∀ (args : Args) (w : World), args.init = args.update →
      mainRun args w =
        .exits 2 { outText := "", errText := modeErrText, mkdirCalled := false,
                   reportCreated := false, reportWritten := none }) ∧
    (∀ (args : Args) (w : World), args.init ≠ args.update →
      mainRun args w = mainBody args w) := by
  constructor
  · intro args w h
    simp [mainRun, h, usageFailure, noEffects]
  · intro args w h
    simp [mainRun, h]

/-- Witness for `C9_mode_check` at concrete inputs. -/
theorem C9_mode_check_witness :
    mainRun ⟨"r", "s", none, false, false, true, true, false⟩
        ⟨⟨[]⟩, true, .ok "h", none, fun _ => .error "", "now"⟩ =
      .exits 2 { outText := "", errText := modeErrText, mkdirCalled := false,
                 reportCreated := false, reportWritten := none } ∧
    mainRun ⟨"r", "s", none, false, false, true, false, false⟩
        ⟨⟨[]⟩, true, .ok "h", none, fun _ => .error "", "now"⟩ =
      mainBody ⟨"r", "s", none, false, false, true, false, false⟩
        ⟨⟨[]⟩, true, .ok "h", none, fun _ => .error "", "now"⟩ := by
  constructor
  · exact C9_mode_check.1 _ _ rfl
  · exact C9_mode_check.2 _ _ (by decide)

/-! ## Claim C5: update with no resolvable baseline -/

/-- C5: an `--update` invocation with no explicit base reference (absent or
empty) whose report text yields no recorded head reference fails as a
usage error: exit code 2, a diagnostic on standard error, and no
filesystem effects (the report is neither created nor written), provided
execution reaches the baseline check (valid scope, `.git` present,
`rev-parse` succeeding). -/
theorem C5_update_without_base (args : Args) (w : World) (scope_root : PyPath)
    (h : String)
    (hinit : args.init = false) (hupd : args.update = true)
    (hscope : scopeResolve args w = some scope_root)
    (hgit : w.dotGitExists = true)
    (hrev : w.revParse = .ok h)
    (hbase : args.base = none ∨ args.base = some "")
    (hlast : parse_last_head_ref (w.reportText.getD "") = none) :
    mainRun args w =
      .exits 2 { outText := "", errText := noBaseErrText, mkdirCalled := false,
                 reportCreated := false, reportWritten := none } := by
  have hne : args.init ≠ args.update := by
    rw [hinit, hupd]; exact Bool.false_ne_true
  rcases hbase with hb | hb <;>
    simp [mainRun, mainBody, updateRun, hne, hscope, hgit, hrev, hinit, hupd,
      hlast, hb, pyOrStr, usageFailure, noEffects]

/-- Witness for `C5_update_without_base` at a concrete invocation. -/
theorem C5_update_without_base_witness :
    mainRun ⟨"r", "scope", none, false, false, false, true, false⟩
        ⟨⟨[]⟩, true, .ok "abc", none, fun _ => .error "", "now"⟩ =
      .exits 2 { outText := "", errText := noBaseErrText, mkdirCalled := false,
                 reportCreated := false, reportWritten := none } :=
  C5_update_without_base _ _ (PyPath.ofString "scope") "abc"
    rfl rfl (by decide) rfl rfl (Or.inl rfl) (by decide)

/-! ## Claim C6: empty diff renders the short variant -/

/-- C6: an `--update` run whose parsed summary has all four collections
empty renders the short "no changes detected" entry (header, refs, scope,
worktree flag, summary line) — written to stdout or appended to the
report per the `--stdout` flag — and this short variant is never equal to
the itemized `build_report_entry` line list, whatever the fields. -/
theorem C6_empty_diff_entry (args : Args) (w : World) (scope_root : PyPath)
    (h base_ref out : String)
    (hinit : args.init = false) (hupd : args.update = true)
    (hscope : scopeResolve args w = some scope_root)
    (hgit : w.dotGitExists = true)
    (hrev : w.revParse = .ok h)
    (hbase : pyOrStr args.base (parse_last_head_ref (w.reportText.getD "")) =
      some base_ref)
    (hne : base_ref ≠ "")
    (hout : w.git (updateDiffArgs base_ref (pyStrip h) scope_root
      (!args.no_worktree)) = .ok out)
    (hempty : isEmptySummary (diff_name_status out DEFAULT_EXCLUDES) = true) :
    (mainRun args w =
      if args.stdout then
        .exits 0 { outText := joinWith "\n" (noChangesEntryLines base_ref
                     (pyStrip h) scope_root (!args.no_worktree) w.now),
                   errText := "", mkdirCalled := false, reportCreated := false,
                   reportWritten := none }
      else
        .exits 0 { outText := "", errText := "", mkdirCalled := true,
                   reportCreated := w.reportText.isNone,
                   reportWritten := some (pyRstrip (w.reportText.getD headerText)
                     ++ "\n\n" ++ joinWith "\n" (noChangesEntryLines base_ref
                       (pyStrip h) scope_root (!args.no_worktree) w.now)) }) ∧
    (∀ (b hd now : String) (sc : PyPath) (uw patch : Bool)
        (git : List String → Except String String) (s : DiffSummary),
      noChangesEntryLines b hd sc uw now ≠
        buildReportEntryLines b hd s uw sc DEFAULT_EXCLUDES patch git now) := by
  constructor
  · have hmode : args.init ≠ args.update := by
      rw [hinit, hupd]; exact Bool.false_ne_true
    simp [mainRun, mainBody, updateRun, updateEntryText, hmode, hscope, hgit,
      hrev, hinit, hbase, hne, hout, hempty]
    intro hcontra
    rw [hupd] at hcontra
    exact absurd hcontra (by decide)
  · intro b hd now sc uw patch git s heq
    have hD : DEFAULT_EXCLUDES.isEmpty = false := by decide
    simp [noChangesEntryLines, buildReportEntryLines, hD] at heq

/-- Witness for `C6_empty_diff_entry` at a concrete invocation (explicit
base, empty diff output, `--stdout`). -/
theorem C6_empty_diff_entry_witness :
    mainRun ⟨"r", "scope", some "base", false, false, false, true, true⟩
        ⟨⟨[]⟩, true, .ok "abc", none, fun _ => .ok "", "now"⟩ =
      .exits 0 { outText := joinWith "\n" (noChangesEntryLines "base"
                   (pyStrip "abc") (PyPath.ofString "scope") true "now"),
                 errText := "", mkdirCalled := false, reportCreated := false,
                 reportWritten := none } := by
  have h := (C6_empty_diff_entry
      ⟨"r", "scope", some "base", false, false, false, true, true⟩
      ⟨⟨[]⟩, true, .ok "abc", none, fun _ => .ok "", "now"⟩
      (PyPath.ofString "scope") "abc" "base" ""
      rfl rfl (by decide) rfl rfl (by decide) (by decide) rfl (by decide)).1
  simpa using h

/-! ## Claim C7: the stdout flag -/

/-- C7 counterexample: with `--init --stdout` and an absent report file the
entry goes to stdout and is not appended, but the report file is still
created with its header and the parent directory is made, because
`ensure_report_exists` runs before the `--stdout` check — refuting "the
report file and its parent directory are left exactly as they were". -/
theorem C7_counterexample :
    mainRun ⟨"r", "scope", none, false, false, true, false, true⟩
        ⟨⟨[]⟩, true, .ok "h", none, fun _ => .error "x", "now"⟩ =
      .exits 0 { outText := initEntryText (PyPath.ofString "scope") "h" "now",
                 errText := "", mkdirCalled := true, reportCreated := true,
                 reportWritten := none } := by
  decide

/-- C7 (amended): with the `--stdout` flag the generated entry is written to
standard output and is never appended to the report.  In `--update` mode
the report file and its parent directory are untouched; in `--init` mode
`ensure_report_exists` still runs, so the parent directory is made and the
file, if absent, is created with the standard header (but the entry itself
is not written to it). -/
theorem C7_stdout_effects (args : Args) (w : World) (scope_root : PyPath)
    (h : String)
    (hstd : args.stdout = true)
    (hscope : scopeResolve args w = some scope_root)
    (hgit : w.dotGitExists = true)
    (hrev : w.revParse = .ok h) :
    (args.init = true → args.update = false →
      mainRun args w =
        .exits 0 { outText := initEntryText scope_root (pyStrip h) w.now,
                   errText := "", mkdirCalled := true,
                   reportCreated := w.reportText.isNone,
                   reportWritten := none }) ∧
    (∀ base_ref out : String, args.init = false → args.update = true →
      pyOrStr args.base (parse_last_head_ref (w.reportText.getD "")) =
        some base_ref →
      base_ref ≠ "" →
      w.git (updateDiffArgs base_ref (pyStrip h) scope_root
        (!args.no_worktree)) = .ok out →
      mainRun args w =
        .exits 0 { outText := updateEntryText base_ref (pyStrip h)
                     (diff_name_status out DEFAULT_EXCLUDES)
                     (!args.no_worktree) scope_root DEFAULT_EXCLUDES
                     args.patch w.git w.now,
                   errText := "", mkdirCalled := false,
                   reportCreated := false, reportWritten := none }) := by
  constructor
  · intro hinit hupd
    have hmode : args.init ≠ args.update := by
      rw [hinit, hupd]; decide
    simp [mainRun, mainBody, initRun, hmode, hscope, hgit, hrev, hinit, hstd]
    intro hcontra
    rw [hupd] at hcontra
    exact absurd hcontra (by decide)
  · intro base_ref out hinit hupd hbase hne hout
    have hmode : args.init ≠ args.update := by
      rw [hinit, hupd]; decide
    simp [mainRun, mainBody, updateRun, hmode, hscope, hgit, hrev, hinit,
      hstd, hbase, hne, hout]
    intro hcontra
    rw [hupd] at hcontra
    exact absurd hcontra (by decide)

/-- Witness for `C7_stdout_effects` at concrete invocations. -/
theorem C7_stdout_effects_witness :
    mainRun ⟨"r", "scope", none, false, false, true, false, true⟩
        ⟨⟨[]⟩, true, .ok "h", some "old", fun _ => .error "x", "now"⟩ =
      .exits 0 { outText := initEntryText (PyPath.ofString "scope")
                   (pyStrip "h") "now",
                 errText := "", mkdirCalled := true, reportCreated := false,
                 reportWritten := none } ∧
    mainRun ⟨"r", "scope", some "base", false, false, false, true, true⟩
        ⟨⟨[]⟩, true, .ok "h", some "old", fun _ => .ok "", "now"⟩ =
      .exits 0 { outText := updateEntryText "base" (pyStrip "h")
                   (diff_name_status "" DEFAULT_EXCLUDES) true
                   (PyPath.ofString "scope") DEFAULT_EXCLUDES false
                   (fun _ => Except.ok "") "now",
                 errText := "", mkdirCalled := false, reportCreated := false,
                 reportWritten := none } := by
  constructor
  · have h := (C7_stdout_effects
        ⟨"r", "scope", none, false, false, true, false, true⟩
        ⟨⟨[]⟩, true, .ok "h", some "old", fun _ => .error "x", "now"⟩
        (PyPath.ofString "scope") "h" rfl (by decide) rfl rfl).1 rfl rfl
    simpa using h
  · have h := (C7_stdout_effects
        ⟨"r", "scope", some "base", false, false, false, true, true⟩
        ⟨⟨[]⟩, true, .ok "h", some "old", fun _ => .ok "", "now"⟩
        (PyPath.ofString "scope") "h" rfl (by decide) rfl rfl).2
        "base" "" rfl rfl (by decide) (by decide) rfl
    simpa using h

/-! ## Claim C8: per-file patch embedding -/

theorem data_append (s t : String) : (s ++ t).data = s.data ++ t.data := by
  cases s; cases t; rfl

theorem string_append_ne_empty_left (s t : String) (hs : s ≠ "") :
    s ++ t ≠ "" := by
  intro he
  apply hs
  apply string_eq_of_data
  have hd := congrArg String.data he
  rw [data_append] at hd
  have h1 : s.data = [] := (List.append_eq_nil.mp hd).1
  exact h1

/-- Spec-side rendering of one file's patch block: heading, fenced
`diff`-labelled code block, body the rstripped diff text, with
`"(no changes)"` replacing an empty diff and an inline error line
replacing a failed subprocess. -/
def specPatchBlock (git : List String → Except String String)
    (base_ref head_ref : String) (use_worktree : Bool) (p : PyPath) :
    List String :=
  match git (patchDiffArgs base_ref head_ref use_worktree p) with
  | .ok s =>
    ["#### `" ++ p.str ++ "`", "", "```diff",
     if pyRstrip s = "" then "(no changes)" else pyRstrip s, "```", ""]
  | .error e =>
    ["#### `" ++ p.str ++ "`", "", "```diff",
     "Error generating diff for " ++ p.str ++ ": " ++ e, "```", ""]

theorem patchLines_eq_flatten (git : List String → Except String String)
    (base_ref head_ref : String) (uw : Bool) :
    ∀ ps : List PyPath,
      patchLines git base_ref head_ref uw ps =
        (ps.map (specPatchBlock git base_ref head_ref uw)).flatten := by
  intro ps
  induction ps with
  | nil => rfl
  | cons p rest ih =>
    simp only [patchLines, List.map_cons, List.flatten_cons]
    rw [ih]
    congr 1
    cases hg : git (patchDiffArgs base_ref head_ref uw p) with
    | ok s => simp [specPatchBlock, hg]
    | error e =>
      have h1 : ("Error generating diff for " : String) ≠ "" := by decide
      have h2 := string_append_ne_empty_left _ p.str h1
      have h3 := string_append_ne_empty_left _ ": " h2
      have h4 := string_append_ne_empty_left _ e h3
      simp [specPatchBlock, hg, h4]

/-- C8: when patch inclusion is requested the entry gains exactly one
`"### Patch"` section consisting of one block per path in
Added ++ Modified ++ Deleted, in that order and never for Renamed paths;
each block is a fenced code block labelled `diff`; a failed single-file
diff subprocess contributes an inline error line in that file's place
while every other block (and the rest of the entry) is unaffected; an
empty per-file diff is rendered as the `"(no changes)"` placeholder. -/
theorem C8_patch_section :
    (∀ (base_ref head_ref : String) (s : DiffSummary) (uw : Bool)
        (sc : PyPath) (exc : List PyPath)
        (git : List String → Except String String) (now : String),
      buildReportEntryLines base_ref head_ref s uw sc exc true git now =
        buildReportEntryLines base_ref head_ref s uw sc exc false git now ++
          "### Patch" :: "" ::
            ((s.added ++ s.modified ++ s.deleted).map
              (specPatchBlock git base_ref head_ref uw)).flatten) ∧
    (∀ (git : List String → Except String String)
        (base_ref head_ref e : String) (uw : Bool) (p : PyPath),
      git (patchDiffArgs base_ref head_ref uw p) = .error e →
      specPatchBlock git base_ref head_ref uw p =
        ["#### `" ++ p.str ++ "`", "", "```diff",
         "Error generating diff for " ++ p.str ++ ": " ++ e, "```", ""]) ∧
    (∀ (git : List String → Except String String)
        (base_ref head_ref out : String) (uw : Bool) (p : PyPath),
      git (patchDiffArgs base_ref head_ref uw p) = .ok out →
      pyRstrip out = "" →
      specPatchBlock git base_ref head_ref uw p =
        ["#### `" ++ p.str ++ "`", "", "```diff", "(no changes)", "```", ""]) := by
  refine ⟨?_, ?_, ?_⟩
  · intro base_ref head_ref s uw sc exc git now
    simp [buildReportEntryLines, patchLines_eq_flatten, List.append_assoc]
  · intro git base_ref head_ref e uw p hg
    have h1 : ("Error generating diff for " : String) ≠ "" := by decide
    simp [specPatchBlock, hg]
  · intro git base_ref head_ref out uw p hg hempty
    simp [specPatchBlock, hg, hempty]

/-- Witness for `C8_patch_section` at concrete inputs. -/
theorem C8_patch_section_witness :
    specPatchBlock (fun _ => .error "boom") "b" "h" true
        (PyPath.ofString "f.md") =
      ["#### `" ++ (PyPath.ofString "f.md").str ++ "`", "", "```diff",
       "Error generating diff for " ++ (PyPath.ofString "f.md").str ++
         ": " ++ "boom", "```", ""] ∧
    specPatchBlock (fun _ => .ok "  \n") "b" "h" true
        (PyPath.ofString "f.md") =
      ["#### `" ++ (PyPath.ofString "f.md").str ++ "`", "", "```diff",
       "(no changes)", "```", ""] := by
  constructor
  · exact C8_patch_section.2.1 (fun _ => .error "boom") "b" "h" "boom" true
      (PyPath.ofString "f.md") rfl
  · exact C8_patch_section.2.2 (fun _ => .ok "  \n") "b" "h" "  \n" true
      (PyPath.ofString "f.md") rfl (by decide)
